import Mathlib

/-!
Shallow embedding of the ENA derivation engine of the `ena_ons` package
(`src/ena_ons/codigos.py`, `src/ena_ons/regras.py`, `src/ena_ons/ena.py`).

Modelling conventions.  Python floats are modelled by `ℚ`; a pandas `NaN`
cell is modelled by `Option ℚ` with `none` standing for `NaN`.  A pandas
`Series` of aligned daily values is modelled by a `List ℚ`; element-wise
arithmetic between aligned series becomes `List.map` / `List.zipWith`,
mirroring the element-wise semantics the rules rely on.  Functions that
pandas executes in place on the caller's dataframe are written in explicit
state-passing style: the returned table is the caller-visible object after
the call.
-/

namespace codigos

/-- Station codes from `ena_ons/codigos.py` (class `Codigos`), restricted to
the codes the verified rules use. -/
def guarapiranga : ℕ := 117

def billings : ℕ := 118

def traicao : ℕ := 104

def edgard_souza_com_tributarios : ℕ := 161

def barra_bonita : ℕ := 237

def santa_cecilia : ℕ := 125

def tocos : ℕ := 201

def lajes : ℕ := 202

def anta : ℕ := 129

def ilha_pombos : ℕ := 130

def pimental : ℕ := 288

end codigos

namespace BombeamentoSantaCecilia

/-- Embeds `BombeamentoSantaCecilia.bombear` (`regras.py`): the piecewise
pumping rule with thresholds `limite_inferior`, `limite_intermediario`,
`limite_superior` (defaults 190, 205, 250).  The divisor 190 of the first
branch is a hardcoded literal in the source, not the threshold parameter. -/
def bombear (limite_inferior limite_intermediario limite_superior vazao : ℚ) : ℚ :=
  if vazao ≤ limite_inferior then vazao * 119 / 190
  else if limite_inferior < vazao ∧ vazao ≤ limite_intermediario then 119
  else if limite_intermediario < vazao ∧ vazao ≤ limite_superior then vazao - 90
  else 160

/-- Embeds `BombeamentoSantaCecilia.calcular`, applied with the default
thresholds of `__init__`. -/
def calcular (santa_cecilia : List ℚ) : List ℚ :=
  santa_cecilia.map (bombear 190 205 250)

end BombeamentoSantaCecilia

namespace VertimentoTocos

/-- Embeds `VertimentoTocos.verter`. -/
def verter (vazao : ℚ) : ℚ :=
  max 0 (vazao - 25)

/-- Embeds `VertimentoTocos.calcular`. -/
def calcular (tocos : List ℚ) : List ℚ :=
  tocos.map verter

end VertimentoTocos

namespace SantanaNatural

/-- The adjustment factor set in `SantanaNatural.__init__`. -/
def fator : ℚ := 0.997

/-- Embeds `SantanaNatural.calcular`: `(tocos + lajes) * fator`. -/
def calcular (tocos lajes : List ℚ) : List ℚ :=
  List.zipWith (fun t l => (t + l) * fator) tocos lajes

end SantanaNatural

namespace SantanaArtificial

/-- Embeds `SantanaArtificial.calcular`:
`(santana - tocos) + vertimento_tocos + bombeamento_santa_cecilia`, with the
three dependencies re-derived from the dataset as in `__init__`. -/
def calcular (santa_cecilia tocos lajes : List ℚ) : List ℚ :=
  List.zipWith (fun a b => a + b)
    (List.zipWith (fun a b => a + b)
      (List.zipWith (fun a b => a - b) (SantanaNatural.calcular tocos lajes) tocos)
      (VertimentoTocos.calcular tocos))
    (BombeamentoSantaCecilia.calcular santa_cecilia)

end SantanaArtificial

namespace VigarioArtificial

/-- Embeds `VigarioArtificial.escolher`: `min(vazao, 190)`. -/
def escolher (vazao : ℚ) : ℚ :=
  min vazao 190

/-- Embeds `VigarioArtificial.calcular`. -/
def calcular (santa_cecilia tocos lajes : List ℚ) : List ℚ :=
  (SantanaArtificial.calcular santa_cecilia tocos lajes).map escolher

end VigarioArtificial

namespace VertimentoSantana

/-- Embeds `VertimentoSantana.calcular`: `santana_artificial - vigario_artificial`,
both dependencies re-derived from the dataset as in `__init__`. -/
def calcular (santa_cecilia tocos lajes : List ℚ) : List ℚ :=
  List.zipWith (fun a b => a - b)
    (SantanaArtificial.calcular santa_cecilia tocos lajes)
    (VigarioArtificial.calcular santa_cecilia tocos lajes)

end VertimentoSantana

namespace AntaArtificial

/-- Embeds `AntaArtificial.calcular`:
`anta - bombeamento_santa_cecilia - santana + vertimento_santana`. -/
def calcular (anta santa_cecilia tocos lajes : List ℚ) : List ℚ :=
  List.zipWith (fun a b => a + b)
    (List.zipWith (fun a b => a - b)
      (List.zipWith (fun a b => a - b) anta (BombeamentoSantaCecilia.calcular santa_cecilia))
      (SantanaNatural.calcular tocos lajes))
    (VertimentoSantana.calcular santa_cecilia tocos lajes)

end AntaArtificial

namespace SimplicioArtificial

/-- Embeds `SimplicioArtificial.escolher` with threshold `limite`
(default 430): the clamped formula below the limit and the flat constant
340 above it. -/
def escolher (limite vazao : ℚ) : ℚ :=
  if vazao ≤ limite then max 0 (vazao - 90)
  else 340

/-- Embeds `SimplicioArtificial.calcular` with the default limit. -/
def calcular (anta santa_cecilia tocos lajes : List ℚ) : List ℚ :=
  (AntaArtificial.calcular anta santa_cecilia tocos lajes).map (escolher 430)

end SimplicioArtificial

namespace IlhaPombosArtificial

/-- Embeds `IlhaPombosArtificial.calcular`. -/
def calcular (ilha_pombos santa_cecilia tocos lajes : List ℚ) : List ℚ :=
  List.zipWith (fun a b => a + b)
    (List.zipWith (fun a b => a - b)
      (List.zipWith (fun a b => a - b) ilha_pombos
        (BombeamentoSantaCecilia.calcular santa_cecilia))
      (SantanaNatural.calcular tocos lajes))
    (VertimentoSantana.calcular santa_cecilia tocos lajes)

end IlhaPombosArtificial

namespace NiloPecanhaArtificial

/-- Embeds `NiloPecanhaArtificial.escolher`: `min(vazao, 144)`. -/
def escolher (vazao : ℚ) : ℚ :=
  min vazao 144

/-- Embeds `NiloPecanhaArtificial.calcular`. -/
def calcular (santa_cecilia tocos lajes : List ℚ) : List ℚ :=
  (VigarioArtificial.calcular santa_cecilia tocos lajes).map escolher

end NiloPecanhaArtificial

namespace LajesArtificial

/-- Embeds `LajesArtificial.escolher`: `lajes + min(tocos, 25)`. -/
def escolher (tocos lajes : ℚ) : ℚ :=
  lajes + min tocos 25

/-- Embeds `LajesArtificial.calcular`: the paired iteration over
`zip(self.lajes, self.tocos)`. -/
def calcular (tocos lajes : List ℚ) : List ℚ :=
  List.zipWith (fun l t => escolher t l) lajes tocos

end LajesArtificial

namespace FontesArtificial

/-- Embeds `FontesArtificial.escolher`: below the limit 17 the Lajes value
passes through, otherwise `17 + min(vigario - nilo_pecanha, 34)`. -/
def escolher (lajes vigario nilo_pecanha : ℚ) : ℚ :=
  if lajes < 17 then lajes
  else 17 + min (vigario - nilo_pecanha) 34

/-- Embeds `FontesArtificial.calcular`: the triple paired iteration over
the three re-derived upstream series. -/
def calcular (santa_cecilia tocos lajes : List ℚ) : List ℚ :=
  List.zipWith3 escolher
    (LajesArtificial.calcular tocos lajes)
    (VigarioArtificial.calcular santa_cecilia tocos lajes)
    (NiloPecanhaArtificial.calcular santa_cecilia tocos lajes)

end FontesArtificial

namespace PereiraPassosArtificial

/-- Embeds `PereiraPassosArtificial.calcular`: `fontes + nilo_pecanha_artificial`. -/
def calcular (santa_cecilia tocos lajes : List ℚ) : List ℚ :=
  List.zipWith (fun a b => a + b)
    (FontesArtificial.calcular santa_cecilia tocos lajes)
    (NiloPecanhaArtificial.calcular santa_cecilia tocos lajes)

end PereiraPassosArtificial

/-- The Belo Monte hydrograph table (`hidrograma`): rows of
(`mes`, `vazao`), one reference flow per calendar month. -/
abbrev Hidrograma := List (ℕ × ℚ)

/-- The hydrograph value for a month, as obtained by the left merge on
`mes` in `BeloMonteArtificial.preparar`: the first matching row, `none`
(pandas `NaN`) when the month is absent. -/
def lookupHidrograma (hidrograma : Hidrograma) (mes : ℕ) : Option ℚ :=
  (hidrograma.find? (fun linha => decide (linha.1 = mes))).map (fun linha => linha.2)

namespace BeloMonteArtificial

/-- The fixed maximum diversion set in `BeloMonteArtificial.__init__`. -/
def desvio_maximo : ℚ := 13900

/-- Embeds `BeloMonteArtificial.desviar`: the three-branch diversion between
the Pimental and Belo Monte reservoirs. -/
def desviar (pimental hidrograma : ℚ) : ℚ :=
  if pimental < hidrograma then 0
  else if pimental > hidrograma + desvio_maximo then desvio_maximo
  else pimental - hidrograma

/-- Embeds `BeloMonteArtificial.calcular`: each day carries its Pimental
flow and its calendar month; the hydrograph value is looked up per month
(`preparar`) and `desviar` is applied row by row.  A month missing from the
hydrograph gives `none` (pandas `NaN`). -/
def calcular (dias : List (ℚ × ℕ)) (hidrograma : Hidrograma) : List (Option ℚ) :=
  dias.map (fun dia => (lookupHidrograma hidrograma dia.2).map (fun h => desviar dia.1 h))

end BeloMonteArtificial

namespace PimentalArtificial

/-- Embeds `PimentalArtificial.calcular`: `pimental - belo_monte`, where the
Belo Monte series is re-derived from the same inputs as in `__init__`. -/
def calcular (dias : List (ℚ × ℕ)) (hidrograma : Hidrograma) : List (Option ℚ) :=
  List.zipWith (fun (dia : ℚ × ℕ) belo => belo.map (fun b => dia.1 - b))
    dias (BeloMonteArtificial.calcular dias hidrograma)

end PimentalArtificial

namespace HenryBorden

/-- Embeds `HenryBorden.calcular` at one timestamp:
`pedras + 0.1 * (esouza - guarapiranga - billings) + guarapiranga + billings`. -/
def calcular (pedras esouza guarapiranga billings : ℚ) : ℚ :=
  pedras + 0.1 * (esouza - guarapiranga - billings) + guarapiranga + billings

end HenryBorden

namespace BillingsArtificial

/-- Embeds `BillingsArtificial.calcular` at one timestamp:
`0.1 * (esouza - guarapiranga - billings) + guarapiranga + billings`. -/
def calcular (esouza guarapiranga billings : ℚ) : ℚ :=
  0.1 * (esouza - guarapiranga - billings) + guarapiranga + billings

end BillingsArtificial

namespace BarraBonitaArtificial

/-- Embeds `BarraBonitaArtificial.calcular` at one timestamp:
`barra_bonita - 0.1 * (esouza - guarapiranga - billings) - guarapiranga - billings`. -/
def calcular (barra_bonita esouza guarapiranga billings : ℚ) : ℚ :=
  barra_bonita - 0.1 * (esouza - guarapiranga - billings) - guarapiranga - billings

end BarraBonitaArtificial

/-- A measured dataset for the rule constructors: columns keyed by station
code.  Column access `df[codigo]` raises `KeyError` in pandas when the code
is absent; the error value carries the missing code. -/
structure DataFrame where
  colunas : List (ℕ × List ℚ)

/-- Embeds pandas column selection `df[codigo]`: the first column with the
given code, or a `KeyError` carrying the code. -/
def DataFrame.getCol (df : DataFrame) (codigo : ℕ) : Except ℕ (List ℚ) :=
  match df.colunas.find? (fun coluna => decide (coluna.1 = codigo)) with
  | some coluna => Except.ok coluna.2
  | none => Except.error codigo

namespace Traicao

/-- The fields bound by `Traicao.__init__`. -/
structure Regra where
  guarapiranga : List ℚ
  billings : List ℚ

/-- Embeds `Traicao.__init__`: extracts the Guarapiranga and Billings
columns, failing with the `KeyError` of the first absent code. -/
def init (df : DataFrame) : Except ℕ Regra := do
  let g ← df.getCol codigos.guarapiranga
  let b ← df.getCol codigos.billings
  pure ⟨g, b⟩

/-- Embeds `Traicao.calcular`: `guarapiranga + billings`. -/
def calcular (regra : Regra) : List ℚ :=
  List.zipWith (fun g b => g + b) regra.guarapiranga regra.billings

end Traicao

/-- A wide flow table as consumed by `VazaoENA.calcular_ena`: timestamps
("data") as index, station codes (floats after validation) as columns. -/
structure TabelaVazao where
  index : List ℕ
  colunas : List ℚ
  valor : ℕ → ℚ → ℚ

/-- Embeds `df.melt(value_name="valor", var_name="codigo", ignore_index=False)`
followed by `reset_index`: the long table, stacked column by column. -/
def melt (tabela : TabelaVazao) : List (ℕ × ℚ × ℚ) :=
  tabela.colunas.flatMap
    (fun codigo => tabela.index.map (fun data => (data, codigo, tabela.valor data codigo)))

/-- The productivity table: rows of (`codigo`, `produtibilidade`). -/
abbrev TabelaProdutibilidade := List (ℚ × ℚ)

/-- The productivity for a code, as obtained by the left merge on `codigo`
in `calcular_ena`: the first matching row, `none` (pandas `NaN`) when the
code is absent. -/
def lookupProdutibilidade (tabela : TabelaProdutibilidade) (codigo : ℚ) : Option ℚ :=
  (tabela.find? (fun linha => decide (linha.1 = codigo))).map (fun linha => linha.2)

/-- Embeds the left merge with the productivity table followed by
`ena = valor * produtibilidade`; an absent code gives `none` (the `NaN`
that multiplication propagates). -/
def mergeProdutibilidade (linhas : List (ℕ × ℚ × ℚ)) (tabela : TabelaProdutibilidade) :
    List (ℕ × ℚ × Option ℚ) :=
  linhas.map (fun linha =>
    (linha.1, linha.2.1, (lookupProdutibilidade tabela linha.2.1).map (fun p => linha.2.2 * p)))

/-- Embeds `VazaoENA.calcular_ena` read back at one cell: melt, left-merge,
multiply, then `pivot(index="data", columns="codigo", values="ena")`, whose
cell for (`data`, `codigo`) is the `ena` value of the unique matching long
row.  The outer `Option` is absence of the row itself; the inner `Option`
is a `NaN` value. -/
def calcular_ena (tabela : TabelaVazao) (produtibilidade : TabelaProdutibilidade)
    (data : ℕ) (codigo : ℚ) : Option (Option ℚ) :=
  ((mergeProdutibilidade (melt tabela) produtibilidade).find?
      (fun linha => decide (linha.1 = data) && decide (linha.2.1 = codigo))).map
    (fun linha => linha.2.2)

/-- Embeds `VazaoENA.calcular_artificiais_paraiba_sul`: the thirteen rule
outputs of the Paraíba do Sul composer, in source order. -/
def calcular_artificiais_paraiba_sul (santa_cecilia tocos lajes anta ilha_pombos : List ℚ) :
    List (List ℚ) :=
  [BombeamentoSantaCecilia.calcular santa_cecilia,
   VertimentoTocos.calcular tocos,
   SantanaNatural.calcular tocos lajes,
   SantanaArtificial.calcular santa_cecilia tocos lajes,
   VigarioArtificial.calcular santa_cecilia tocos lajes,
   VertimentoSantana.calcular santa_cecilia tocos lajes,
   AntaArtificial.calcular anta santa_cecilia tocos lajes,
   SimplicioArtificial.calcular anta santa_cecilia tocos lajes,
   IlhaPombosArtificial.calcular ilha_pombos santa_cecilia tocos lajes,
   NiloPecanhaArtificial.calcular santa_cecilia tocos lajes,
   LajesArtificial.calcular tocos lajes,
   FontesArtificial.calcular santa_cecilia tocos lajes,
   PereiraPassosArtificial.calcular santa_cecilia tocos lajes]

/-- Embeds `VazaoENA.calcular_artificiais_xingu`: the Belo Monte and
Pimental artificial series of the Xingu composer, in source order. -/
def calcular_artificiais_xingu (dias : List (ℚ × ℕ)) (hidrograma : Hidrograma) :
    List (List (Option ℚ)) :=
  [BeloMonteArtificial.calcular dias hidrograma,
   PimentalArtificial.calcular dias hidrograma]

/-- A column label of the raw flow dataframe before validation: either
already numeric or a textual label still to be coerced. -/
inductive RotuloColuna where
  | num (valor : ℚ)
  | texto (valor : String)
deriving DecidableEq

/-- An index label of the raw flow dataframe before validation: either
already a datetime (modelled as a day number) or a textual label still to
be parsed. -/
inductive RotuloIndex where
  | datetime (valor : ℕ)
  | texto (valor : String)
deriving DecidableEq

/-- The caller-visible flow dataframe handed to `VazaoENA.__init__`. -/
structure DadosFrame where
  colunas : List RotuloColuna
  index : List RotuloIndex
  valores : List (List ℚ)
deriving DecidableEq

/-- A cell of the productivity dataframe: pandas dtype is visible to the
caller, so an integer cell and the float cell of the same value are
distinct states. -/
inductive Celula where
  | intCel (valor : ℤ)
  | floatCel (valor : ℚ)
  | textoCel (valor : String)
deriving DecidableEq

/-- The caller-visible productivity dataframe (`codigo`, `produtibilidade`
columns) handed to `VazaoENA.__init__`. -/
structure ProdutibilidadeFrame where
  codigo : List Celula
  produtibilidade : List Celula
deriving DecidableEq

def msg_colunas : String := "Colunas do dataframe de dados devem ser codigos dos postos, no tipo int ou float!"

def msg_index : String := "Index do dataframe deve ser do tipo datetime64 ou parseavel!"

def msg_float : String := "could not convert string to float"

/-- Decimal reading of a character list, used to model the numeric
coercions below. -/
def parseNumeroAux : List Char → ℕ → Option ℕ
  | [], acc => some acc
  | c :: resto, acc =>
    if c.isDigit then parseNumeroAux resto (acc * 10 + (c.toNat - 48)) else none

/-- Models the numeric coercion `astype(float)` applied to a textual label,
restricted to decimal-integer strings (enough to exercise the code paths
the claims need). -/
def parseNumero (s : String) : Option ℚ :=
  match s.data with
  | [] => none
  | l => (parseNumeroAux l 0).map (fun n => (n : ℚ))

/-- Models `pd.to_datetime` on a textual index label, restricted to
decimal-integer strings standing for day numbers. -/
def parseDatetime (s : String) : Option ℕ :=
  match s.data with
  | [] => none
  | l => parseNumeroAux l 0

/-- True when the column index dtype already is `int`/`float`
(`dados.columns.dtype in [int, float]`). -/
def colunasNumericas (colunas : List RotuloColuna) : Bool :=
  colunas.all (fun c => match c with | .num _ => true | .texto _ => false)

/-- True when the index dtype already is `datetime64`
(`pd.api.types.is_datetime64_dtype(dados.index)`). -/
def indexDatetime (index : List RotuloIndex) : Bool :=
  index.all (fun i => match i with | .datetime _ => true | .texto _ => false)

/-- Coercion of one column label by `dados.columns.astype(float)`, turning
the failure into the `ValueError` message of `__validar_dados__`. -/
def coerceColuna (c : RotuloColuna) : Except String RotuloColuna :=
  match c with
  | .num q => Except.ok (.num q)
  | .texto s =>
    match parseNumero s with
    | some q => Except.ok (.num q)
    | none => Except.error msg_colunas

/-- Coercion of one index label by `pd.to_datetime(dados.index)`, turning
the failure into the `ValueError` message of `__validar_dados__`. -/
def coerceIndexRotulo (i : RotuloIndex) : Except String RotuloIndex :=
  match i with
  | .datetime n => Except.ok (.datetime n)
  | .texto s =>
    match parseDatetime s with
    | some n => Except.ok (.datetime n)
    | none => Except.error msg_index

/-- Embeds `VazaoENA.__validar_dados__` in state-passing style.  The source
reassigns `dados.columns` and `dados.index` on the object the caller passed
in and returns that same object; the returned frame here is therefore the
caller-visible post-state of the argument. -/
def validar_dados (dados : DadosFrame) : Except String DadosFrame := do
  let colunas ←
    if colunasNumericas dados.colunas then pure dados.colunas
    else dados.colunas.mapM coerceColuna
  let index ←
    if indexDatetime dados.index then pure dados.index
    else dados.index.mapM coerceIndexRotulo
  pure ⟨colunas, index, dados.valores⟩

/-- Coercion of one productivity cell by `astype(float)`. -/
def Celula.paraFloat : Celula → Except String Celula
  | .intCel n => Except.ok (.floatCel (n : ℚ))
  | .floatCel q => Except.ok (.floatCel q)
  | .textoCel s =>
    match parseNumero s with
    | some q => Except.ok (.floatCel q)
    | none => Except.error msg_float

/-- Embeds `VazaoENA.__validar_produtibilidade__` in state-passing style:
the source coerces the `codigo` and `produtibilidade` columns to float on
the caller's object and returns that same object.  The column-presence
check of the source is vacuous here because the two columns are fields. -/
def validar_produtibilidade (p : ProdutibilidadeFrame) : Except String ProdutibilidadeFrame := do
  let codigo ← p.codigo.mapM Celula.paraFloat
  let produt ← p.produtibilidade.mapM Celula.paraFloat
  pure ⟨codigo, produt⟩

/-- Embeds `VazaoENA.__init__` in state-passing style: validates both
tables in order; on success the returned pair is the caller-visible
post-state of the two dataframes passed in. -/
def vazaoENAInit (dados : DadosFrame) (produtibilidade : ProdutibilidadeFrame) :
    Except String (DadosFrame × ProdutibilidadeFrame) := do
  let d ← validar_dados dados
  let p ← validar_produtibilidade produtibilidade
  pure (d, p)

def texto117 : String := "117"

/-- A concrete flow dataframe whose single column label is the string
form of the Guarapiranga code. -/
def dadosExemplo : DadosFrame :=
  ⟨[RotuloColuna.texto texto117], [RotuloIndex.datetime 0], [[1]]⟩

/-- A concrete productivity dataframe whose cells hold integer dtype. -/
def produtibilidadeExemplo : ProdutibilidadeFrame :=
  ⟨[Celula.intCel 117], [Celula.intCel 2]⟩

/-!
Theorems.
-/

/-- C1: for every day of the dataset whose month has hydrograph value `m`,
the Belo Monte Artificial rule computes `desviar pimental m` for that day,
and `desviar` yields 0 when the Pimental flow is below `m`, exactly 13900
when it exceeds `m + 13900`, the difference `pimental - m` otherwise, and
at the boundary `pimental = m + 13900` the subtraction branch applies and
also yields exactly 13900. -/
theorem belo_monte_desvio_regra (dias : List (ℚ × ℕ)) (hidrograma : Hidrograma)
    (i : ℕ) (hi : i < dias.length) (m : ℚ)
    (hm : lookupHidrograma hidrograma (dias.get ⟨i, hi⟩).2 = some m) :
    (BeloMonteArtificial.calcular dias hidrograma)[i]? =
      some (some (BeloMonteArtificial.desviar (dias.get ⟨i, hi⟩).1 m))
    ∧ (∀ p : ℚ, p < m → BeloMonteArtificial.desviar p m = 0)
    ∧ (∀ p : ℚ, m + 13900 < p → BeloMonteArtificial.desviar p m = 13900)
    ∧ (∀ p : ℚ, m ≤ p → p ≤ m + 13900 → BeloMonteArtificial.desviar p m = p - m)
    ∧ BeloMonteArtificial.desviar (m + 13900) m = 13900 := by
  refine ⟨?_, ?_, ?_, ?_, ?_⟩
  · simp only [BeloMonteArtificial.calcular, List.getElem?_map,
      List.getElem?_eq_getElem hi, Option.map_some', List.get_eq_getElem] at hm ⊢
    rw [hm]
    rfl
  · intro p hp
    simp only [BeloMonteArtificial.desviar, if_pos hp]
  · intro p hp
    have h1 : ¬ p < m := by
      have : (0 : ℚ) < 13900 := by norm_num
      push_neg
      linarith
    simp only [BeloMonteArtificial.desviar, BeloMonteArtificial.desvio_maximo, if_neg h1,
      if_pos hp]
  · intro p hmp hple
    have h1 : ¬ p < m := not_lt.mpr hmp
    have h2 : ¬ p > m + 13900 := not_lt.mpr hple
    simp only [BeloMonteArtificial.desviar, BeloMonteArtificial.desvio_maximo] at h2 ⊢
    rw [if_neg h1, if_neg h2]
  · have h1 : ¬ m + 13900 < m := by
      push_neg
      linarith
    have h2 : ¬ m + 13900 > m + 13900 := lt_irrefl _
    simp only [BeloMonteArtificial.desviar, BeloMonteArtificial.desvio_maximo] at h2 ⊢
    rw [if_neg h1, if_neg h2]
    ring

/-- Witness for `belo_monte_desvio_regra` at a one-day dataset with
hydrograph month 1 mapped to 10. -/
theorem belo_monte_desvio_regra_witness :
    BeloMonteArtificial.desviar (10 + 13900) 10 = 13900 :=
  (belo_monte_desvio_regra [((5 : ℚ), 1)] [(1, (10 : ℚ))] 0 (by decide) 10 rfl).2.2.2.2

/-- C2: with the default thresholds 190, 205 and 250, the Santa Cecília
pumping rule maps `v ≤ 190` to `v * 119 / 190`, `190 < v ≤ 205` to 119,
`205 < v ≤ 250` to `v - 90` and `v > 250` to 160; each boundary is closed
on the documented side, so `v = 190` gives 119 through the first bracket,
`v = 205` gives 119 and `v = 250` gives 160 through the `v - 90` branch. -/
theorem bombeamento_santa_cecilia_regra (v : ℚ) :
    (v ≤ 190 → BombeamentoSantaCecilia.bombear 190 205 250 v = v * 119 / 190)
    ∧ (190 < v → v ≤ 205 → BombeamentoSantaCecilia.bombear 190 205 250 v = 119)
    ∧ (205 < v → v ≤ 250 → BombeamentoSantaCecilia.bombear 190 205 250 v = v - 90)
    ∧ (250 < v → BombeamentoSantaCecilia.bombear 190 205 250 v = 160)
    ∧ BombeamentoSantaCecilia.bombear 190 205 250 190 = 119
    ∧ BombeamentoSantaCecilia.bombear 190 205 250 205 = 119
    ∧ BombeamentoSantaCecilia.bombear 190 205 250 250 = 160 := by
  refine ⟨?_, ?_, ?_, ?_, ?_, ?_, ?_⟩
  · intro h
    simp only [BombeamentoSantaCecilia.bombear, if_pos h]
  · intro h1 h2
    rw [BombeamentoSantaCecilia.bombear, if_neg (not_le.mpr h1), if_pos ⟨h1, h2⟩]
  · intro h1 h2
    have hle : ¬ v ≤ 190 := by push_neg; linarith
    have hmid : ¬ ((190 : ℚ) < v ∧ v ≤ 205) := by
      push_neg
      intro
      linarith
    rw [BombeamentoSantaCecilia.bombear, if_neg hle, if_neg hmid, if_pos ⟨h1, h2⟩]
  · intro h
    have hle : ¬ v ≤ 190 := by push_neg; linarith
    have hmid : ¬ ((190 : ℚ) < v ∧ v ≤ 205) := by
      push_neg
      intro
      linarith
    have hsup : ¬ ((205 : ℚ) < v ∧ v ≤ 250) := by
      push_neg
      intro
      linarith
    rw [BombeamentoSantaCecilia.bombear, if_neg hle, if_neg hmid, if_neg hsup]
  · rw [BombeamentoSantaCecilia.bombear, if_pos (by norm_num : (190 : ℚ) ≤ 190)]
    norm_num
  · rw [BombeamentoSantaCecilia.bombear, if_neg (by norm_num : ¬ (205 : ℚ) ≤ 190),
      if_pos (by norm_num : (190 : ℚ) < 205 ∧ (205 : ℚ) ≤ 205)]
  · rw [BombeamentoSantaCecilia.bombear, if_neg (by norm_num : ¬ (250 : ℚ) ≤ 190),
      if_neg (by norm_num : ¬ ((190 : ℚ) < 250 ∧ (250 : ℚ) ≤ 205)),
      if_pos (by norm_num : (205 : ℚ) < 250 ∧ (250 : ℚ) ≤ 250)]
    norm_num

/-- Witness for `bombeamento_santa_cecilia_regra` on the interior of each
bracket. -/
theorem bombeamento_santa_cecilia_regra_witness :
    BombeamentoSantaCecilia.bombear 190 205 250 95 = 95 * 119 / 190
    ∧ BombeamentoSantaCecilia.bombear 190 205 250 200 = 119
    ∧ BombeamentoSantaCecilia.bombear 190 205 250 230 = 230 - 90
    ∧ BombeamentoSantaCecilia.bombear 190 205 250 300 = 160 :=
  ⟨(bombeamento_santa_cecilia_regra 95).1 (by norm_num),
   ((bombeamento_santa_cecilia_regra 200).2.1 (by norm_num) (by norm_num)),
   ((bombeamento_santa_cecilia_regra 230).2.2.1 (by norm_num) (by norm_num)),
   ((bombeamento_santa_cecilia_regra 300).2.2.2.1 (by norm_num))⟩

/-- C4: with the default limit 430, the Simplício rule maps `v ≤ 430` to
`max 0 (v - 90)` and `v > 430` to the fixed constant 340; `v = 430` yields
340 through the formula branch and `v = 430.01` yields the flat cap 340. -/
theorem simplicio_regra (v : ℚ) :
    (v ≤ 430 → SimplicioArtificial.escolher 430 v = max 0 (v - 90))
    ∧ (430 < v → SimplicioArtificial.escolher 430 v = 340)
    ∧ SimplicioArtificial.escolher 430 430 = max 0 (430 - 90)
    ∧ SimplicioArtificial.escolher 430 430 = 340
    ∧ SimplicioArtificial.escolher 430 430.01 = 340 := by
  refine ⟨?_, ?_, ?_, ?_, ?_⟩
  · intro h
    simp only [SimplicioArtificial.escolher, if_pos h]
  · intro h
    simp only [SimplicioArtificial.escolher, if_neg (not_le.mpr h)]
  · rw [SimplicioArtificial.escolher, if_pos (by norm_num : (430 : ℚ) ≤ 430)]
  · rw [SimplicioArtificial.escolher, if_pos (by norm_num : (430 : ℚ) ≤ 430)]
    norm_num
  · rw [SimplicioArtificial.escolher, if_neg (by norm_num : ¬ (430.01 : ℚ) ≤ 430)]

/-- Witness for `simplicio_regra` on both sides of the limit. -/
theorem simplicio_regra_witness :
    SimplicioArtificial.escolher 430 100 = max 0 (100 - 90)
    ∧ SimplicioArtificial.escolher 430 1000 = 340 :=
  ⟨(simplicio_regra 100).1 (by norm_num), (simplicio_regra 1000).2.1 (by norm_num)⟩

/-- C9: for every real-valued Pimental flow and hydrograph value the Belo
Monte diversion is bounded below by 0 and above by 13900 over all three
branches. -/
theorem desvio_limitado (pimental hidrograma : ℚ) :
    0 ≤ BeloMonteArtificial.desviar pimental hidrograma
    ∧ BeloMonteArtificial.desviar pimental hidrograma ≤ 13900 := by
  rw [BeloMonteArtificial.desviar, BeloMonteArtificial.desvio_maximo]
  split_ifs with h1 h2
  · norm_num
  · norm_num
  · push_neg at h1 h2
    constructor <;> linarith

/-- C5: the Billings Artificial and Barra Bonita Artificial rules of the
proportional-split family use the same correction term
`0.1 * (esouza - guarapiranga - billings)`, so at every timestamp their
outputs sum back to the measured Barra Bonita flow; the term Henry Borden
adds on top of Pedras is identical to the whole Billings Artificial
output (term plus Guarapiranga plus Billings). -/
theorem proporcional_conservacao_barra_bonita
    (esouza guarapiranga billings barra_bonita pedras : ℚ) :
    BillingsArtificial.calcular esouza guarapiranga billings
        + BarraBonitaArtificial.calcular barra_bonita esouza guarapiranga billings
      = barra_bonita
    ∧ HenryBorden.calcular pedras esouza guarapiranga billings - pedras
        = BillingsArtificial.calcular esouza guarapiranga billings := by
  rw [BillingsArtificial.calcular, BarraBonitaArtificial.calcular, HenryBorden.calcular]
  constructor <;> ring

/-- C8: the Paraíba do Sul and Xingu composers are pure functions of their
inputs, so running either twice on identical input yields identical
output; moreover the Belo Monte series that `PimentalArtificial` re-derives
internally is numerically identical to the composer's own Belo Monte
column, and the re-derived Santana/Vigário chains inside
`VertimentoSantana` agree with the composer's corresponding columns. -/
theorem composer_deterministico
    (santa_cecilia tocos lajes anta ilha_pombos : List ℚ)
    (dias : List (ℚ × ℕ)) (hidrograma : Hidrograma) :
    calcular_artificiais_paraiba_sul santa_cecilia tocos lajes anta ilha_pombos =
        calcular_artificiais_paraiba_sul santa_cecilia tocos lajes anta ilha_pombos
    ∧ calcular_artificiais_xingu dias hidrograma = calcular_artificiais_xingu dias hidrograma
    ∧ PimentalArtificial.calcular dias hidrograma =
        List.zipWith (fun (dia : ℚ × ℕ) belo => belo.map (fun b => dia.1 - b))
          dias (BeloMonteArtificial.calcular dias hidrograma)
    ∧ VertimentoSantana.calcular santa_cecilia tocos lajes =
        List.zipWith (fun a b => a - b)
          (SantanaArtificial.calcular santa_cecilia tocos lajes)
          (VigarioArtificial.calcular santa_cecilia tocos lajes) :=
  ⟨rfl, rfl, rfl, rfl⟩

/-- C3: for every dataset and every day whose month the hydrograph covers,
the Pimental Artificial value plus the Belo Monte Artificial value equals
the measured Pimental flow. -/
theorem conservacao_pimental (dias : List (ℚ × ℕ)) (hidrograma : Hidrograma)
    (i : ℕ) (hi : i < dias.length) (m : ℚ)
    (hm : lookupHidrograma hidrograma (dias.get ⟨i, hi⟩).2 = some m) :
    ∃ pimental_artificial belo_monte_artificial : ℚ,
      (PimentalArtificial.calcular dias hidrograma)[i]? = some (some pimental_artificial)
      ∧ (BeloMonteArtificial.calcular dias hidrograma)[i]? = some (some belo_monte_artificial)
      ∧ pimental_artificial + belo_monte_artificial = (dias.get ⟨i, hi⟩).1 := by
  simp only [List.get_eq_getElem] at hm ⊢
  refine ⟨dias[i].1 - BeloMonteArtificial.desviar dias[i].1 m,
    BeloMonteArtificial.desviar dias[i].1 m, ?_, ?_, by ring⟩
  · rw [PimentalArtificial.calcular, List.getElem?_zipWith']
    simp only [BeloMonteArtificial.calcular, List.getElem?_map,
      List.getElem?_eq_getElem hi, Option.map_some', Option.bind_some, hm]
    rfl
  · simp only [BeloMonteArtificial.calcular, List.getElem?_map,
      List.getElem?_eq_getElem hi, Option.map_some', hm]

/-- Witness for `conservacao_pimental` at a one-day dataset. -/
theorem conservacao_pimental_witness :
    ∃ pimental_artificial belo_monte_artificial : ℚ,
      (PimentalArtificial.calcular [((100 : ℚ), 1)] [(1, (40 : ℚ))])[0]? =
          some (some pimental_artificial)
      ∧ (BeloMonteArtificial.calcular [((100 : ℚ), 1)] [(1, (40 : ℚ))])[0]? =
          some (some belo_monte_artificial)
      ∧ pimental_artificial + belo_monte_artificial =
          (([((100 : ℚ), 1)] : List (ℚ × ℕ)).get ⟨0, by decide⟩).1 :=
  conservacao_pimental [((100 : ℚ), 1)] [(1, (40 : ℚ))] 0 (by decide) 40 rfl

/-- C6: a dataset without the Guarapiranga column makes the Traição rule
fail at construction with the `KeyError` naming that code, and a dataset
without the Billings column can never construct the rule either: no series
of missing or incorrect values is produced. -/
theorem traicao_coluna_ausente (df : DataFrame) :
    (codigos.guarapiranga ∉ df.colunas.map Prod.fst →
      Traicao.init df = Except.error codigos.guarapiranga)
    ∧ (codigos.billings ∉ df.colunas.map Prod.fst →
      ∀ regra : Traicao.Regra, Traicao.init df ≠ Except.ok regra) := by
  constructor
  · intro h
    have hfind : df.colunas.find? (fun coluna => decide (coluna.1 = codigos.guarapiranga))
        = none := by
      rw [List.find?_eq_none]
      intro x hx
      simp only [decide_eq_true_eq]
      intro hxg
      exact h (List.mem_map.mpr ⟨x, hx, hxg⟩)
    rw [Traicao.init, DataFrame.getCol, hfind]
    rfl
  · intro h regra
    have hfind : df.colunas.find? (fun coluna => decide (coluna.1 = codigos.billings))
        = none := by
      rw [List.find?_eq_none]
      intro x hx
      simp only [decide_eq_true_eq]
      intro hxb
      exact h (List.mem_map.mpr ⟨x, hx, hxb⟩)
    rw [Traicao.init]
    cases hg : df.getCol codigos.guarapiranga with
    | error e =>
      exact fun hcontra => Except.noConfusion hcontra
    | ok g =>
      have hb : df.getCol codigos.billings = Except.error codigos.billings := by
        rw [DataFrame.getCol, hfind]
      rw [hb]
      exact fun hcontra => Except.noConfusion hcontra

/-- Witness for `traicao_coluna_ausente`: a dataset holding only the
Billings column fails with the Guarapiranga `KeyError`. -/
theorem traicao_coluna_ausente_witness :
    Traicao.init ⟨[(codigos.billings, [])]⟩ = Except.error codigos.guarapiranga :=
  (traicao_coluna_ausente ⟨[(codigos.billings, [])]⟩).1 (by decide)

/-- Helper: `find?` of an equality predicate returns the sought element as
soon as it occurs in the list. -/
theorem find?_mem_eq_self {α : Type} [DecidableEq α] {l : List α} {t : α} (ht : t ∈ l) :
    l.find? (fun x => decide (x = t)) = some t := by
  induction l with
  | nil => cases ht
  | cons a resto ih =>
    by_cases hat : a = t
    · subst hat
      exact List.find?_cons_of_pos _ (by simp)
    · rw [List.find?_cons_of_neg _ (by simp [hat])]
      exact ih ((List.mem_cons.mp ht).resolve_left (fun hta => hat hta.symm))

/-- Helper: in the melted long table, the first row carrying a given
(`data`, `codigo`) pair of the wide table is that pair with its value. -/
theorem find?_melt_eq (index : List ℕ) (colunas : List ℚ) (valor : ℕ → ℚ → ℚ)
    (data : ℕ) (codigo : ℚ) (hdata : data ∈ index) (hcodigo : codigo ∈ colunas) :
    (colunas.flatMap (fun c => index.map (fun t => (t, c, valor t c)))).find?
        (fun linha => decide (linha.1 = data) && decide (linha.2.1 = codigo)) =
      some (data, codigo, valor data codigo) := by
  induction colunas with
  | nil => cases hcodigo
  | cons c0 resto ih =>
    rw [List.flatMap_cons, List.find?_append]
    by_cases hcc : c0 = codigo
    · subst hcc
      have hcol : (index.map (fun t => (t, c0, valor t c0))).find?
          (fun linha => decide (linha.1 = data) && decide (linha.2.1 = c0)) =
            some (data, c0, valor data c0) := by
        rw [List.find?_map]
        have hfun : ((fun linha : ℕ × ℚ × ℚ => decide (linha.1 = data)
              && decide (linha.2.1 = c0)) ∘ (fun t => (t, c0, valor t c0)))
            = (fun t => decide (t = data)) := by
          funext t
          simp [Function.comp]
        rw [hfun, find?_mem_eq_self hdata]
        rfl
      rw [hcol]
      rfl
    · have hnone : (index.map (fun t => (t, c0, valor t c0))).find?
          (fun linha => decide (linha.1 = data) && decide (linha.2.1 = codigo)) = none := by
        rw [List.find?_eq_none]
        intro x hx
        obtain ⟨t, _, rfl⟩ := List.mem_map.mp hx
        simp [hcc]
      rw [hnone, Option.none_or]
      exact ih ((List.mem_cons.mp hcodigo).resolve_left (fun hc => hcc hc.symm))

/-- C7: for every wide flow table with unique timestamps and station codes,
`calcular_ena` yields at each (timestamp, code) cell exactly
`flow * p` where `p` is the productivity of the code, and for a code absent
from the productivity table the left-join semantics leave the cell missing
(`NaN`), not zero and not an error. -/
theorem calcular_ena_spec (tabela : TabelaVazao) (produtibilidade : TabelaProdutibilidade)
    (data : ℕ) (codigo : ℚ)
    (hnodup_index : tabela.index.Nodup) (hnodup_colunas : tabela.colunas.Nodup)
    (hdata : data ∈ tabela.index) (hcodigo : codigo ∈ tabela.colunas) :
    calcular_ena tabela produtibilidade data codigo =
      some ((lookupProdutibilidade produtibilidade codigo).map
        (fun p => tabela.valor data codigo * p))
    ∧ (lookupProdutibilidade produtibilidade codigo = none →
      calcular_ena tabela produtibilidade data codigo = some none) := by
  have hmain : calcular_ena tabela produtibilidade data codigo =
      some ((lookupProdutibilidade produtibilidade codigo).map
        (fun p => tabela.valor data codigo * p)) := by
    rw [calcular_ena, mergeProdutibilidade, List.find?_map]
    have hfun : ((fun linha : ℕ × ℚ × Option ℚ => decide (linha.1 = data)
          && decide (linha.2.1 = codigo)) ∘ (fun linha : ℕ × ℚ × ℚ => (linha.1, linha.2.1,
            (lookupProdutibilidade produtibilidade linha.2.1).map (fun p => linha.2.2 * p))))
        = (fun linha : ℕ × ℚ × ℚ => decide (linha.1 = data) && decide (linha.2.1 = codigo)) := by
      funext linha
      rfl
    rw [hfun, melt, find?_melt_eq tabela.index tabela.colunas tabela.valor data codigo
      hdata hcodigo]
    rfl
  refine ⟨hmain, fun hnone => ?_⟩
  rw [hmain, hnone]
  rfl

/-- Witness for `calcular_ena_spec` at a one-cell table: productivity 2
gives `ena = 7 * 2`, and with an empty productivity table the cell is
missing. -/
theorem calcular_ena_spec_witness :
    calcular_ena ⟨[0], [(117 : ℚ)], fun _ _ => 7⟩ [((117 : ℚ), 2)] 0 117 = some (some (7 * 2))
    ∧ calcular_ena ⟨[0], [(117 : ℚ)], fun _ _ => 7⟩ [] 0 117 = some none := by
  constructor
  · have h := (calcular_ena_spec ⟨[0], [(117 : ℚ)], fun _ _ => 7⟩ [((117 : ℚ), 2)] 0 117
      (by simp) (by simp) (by simp) (by simp)).1
    rw [h]
    rfl
  · exact (calcular_ena_spec ⟨[0], [(117 : ℚ)], fun _ _ => 7⟩ [] 0 117
      (by simp) (by simp) (by simp) (by simp)).2 rfl

/-- C10: constructing the converter operates in place on the caller's
dataframes: on the concrete inputs with a textual column label and
integer-dtype productivity cells, construction succeeds and the
caller-visible post-state of both dataframes differs from the state the
caller passed in (column labels coerced to numeric, productivity cells
coerced to float dtype). -/
theorem vazao_ena_init_mutates :
    ∃ resultado : DadosFrame × ProdutibilidadeFrame,
      vazaoENAInit dadosExemplo produtibilidadeExemplo = Except.ok resultado
      ∧ resultado.1 ≠ dadosExemplo ∧ resultado.2 ≠ produtibilidadeExemplo := by
  refine ⟨(⟨[RotuloColuna.num 117], [RotuloIndex.datetime 0], [[1]]⟩,
    ⟨[Celula.floatCel 117], [Celula.floatCel 2]⟩), ?_, ?_, ?_⟩
  · rfl
  · intro hcontra
    exact absurd (congrArg DadosFrame.colunas hcontra) (by decide)
  · intro hcontra
    exact absurd (congrArg ProdutibilidadeFrame.codigo hcontra) (by decide)
